import Mathlib

/-!
Verification of the `primordial` page primitive (src/src/page.rs).

The source defines `Page([[u64; 32]; 16])` with `#[repr(C, align(4096))]`:
16 × 32 `u64` words laid out contiguously, i.e. 16 * 32 * 8 = 4096 bytes of
storage, aligned to 4096.  The `AsRef<[u8]>` / `AsMut<[u8]>` impls reinterpret
that storage via `align_to::<u8>()` as exactly those 4096 bytes, byte for byte.
We embed a `Page` by its byte storage: a function from the 4096 byte indices to
the byte value held there.  A plain-old-data ("Copy") type `T` is embedded by
its statically known size and alignment, and a value of `T` by its bit
representation, a function giving each byte of the representation (indices
below the size are meaningful).  `Page::copy`'s three `assert!`s become the
three checks of an `Except`, in source order, each mapped to the failure name
the specification gives it.  One further panic path of the source survives
the asserts: `slice::align_to_mut` returns the original slice as prefix and
an empty middle slice when the target element type is zero-sized, so for a
zero-sized `T` the write `typed[0] = value` is an index-out-of-bounds panic;
the embedding keeps that branch as a fourth error.
-/

namespace Primordial

/-- A single page of memory: `Page([[u64; 32]; 16])`, `repr(C, align(4096))`.
Its storage is 16 * 32 * 8 = 4096 contiguous bytes; `bytes i` is the byte at
offset `i` of that storage (the view `align_to::<u8>()` exposes). -/
@[ext]
structure Page where
  bytes : Fin 4096 → Nat

/-- `Page::size()`: `size_of::<Self>()`, the byte count of `[[u64; 32]; 16]`
(the `align(4096)` attribute adds no tail padding since 16 * 32 * 8 = 4096). -/
def Page.size : Nat := 16 * 32 * 8

/-- `align_of::<Page>()`: the declared `#[repr(C, align(4096))]` alignment. -/
def Page.align : Nat := 4096

/-- `Page::zeroed()`: `Self([[0; 32]; 16])`, every byte of storage zero. -/
def Page.zeroed : Page := ⟨fun _ => 0⟩

/-- `Default::default()` for `Page`: `Self([[0; 32]; 16])`. -/
def Page.default : Page := ⟨fun _ => 0⟩

/-- `ConstDefault::DEFAULT` for `Page` (under the `const-default` feature):
`Self([[0; 32]; 16])`. -/
def Page.DEFAULT : Page := ⟨fun _ => 0⟩

/-- `AsRef<[u8]>::as_ref`: the storage viewed as a byte slice, in storage
order, without copying — the whole 4096 bytes, nothing before or after. -/
def Page.asRef (p : Page) : List Nat := List.ofFn p.bytes

/-- `AsMut<[u8]>::as_mut`: the same byte view, obtained mutably.  The slice it
presents is identical to the read-only one. -/
def Page.asMut (p : Page) : List Nat := List.ofFn p.bytes

/-- Writing one byte through the mutable byte view `as_mut()`: the byte at
offset `i` becomes `b`, every other byte keeps its value.  In the embedding
the write yields the new page value; the page it was performed on is a value,
so no other page changes. -/
def Page.setByte (p : Page) (i : Fin 4096) (b : Nat) : Page :=
  ⟨fun j => if j = i then b else p.bytes j⟩

/-- A plain-old-data (`Copy`) type `T`, embedded by what `Page::copy` reads of
it: `size_of::<T>()` and `align_of::<T>()`. -/
structure Pod where
  size : Nat
  align : Nat

/-- The panics of `Page::copy`.  The first three are its `assert!`s, in
source order:
`size_of::<Page>() >= size_of_val(&value)`,
`align_of::<Page>() >= align_of_val(&value)`,
`align_of::<Page>() % align_of_val(&value) == 0`.
The fourth is the panic of `typed[0] = value` after all asserts pass: for a
zero-sized `T`, `bytes.align_to_mut::<T>()` returns an empty middle slice
(documented `align_to` behaviour), so indexing it at 0 is out of bounds. -/
inductive CopyError where
  | sizeExceeded
  | alignmentExceeded
  | alignmentNotDivisible
  | indexOutOfBounds
deriving DecidableEq

/-- `Page::copy::<T>(value)`.  A value of `T` is its bit representation
`v : Nat → Nat` (byte `v i` at representation offset `i`, for `i < T.size`).
The three `assert!`s run first, in source order, before any byte is written;
a panic is the corresponding `CopyError`.  Then `typed[0] = value` writes
through `bytes.align_to_mut::<T>()`: when `T` is zero-sized that middle
slice is empty and the indexing panics (index out of bounds); otherwise the
page storage starts aligned for `T` (the page pointer is 4096-aligned and
the asserts passed), so `typed[0]` is the value at byte offset 0, and the
result is the zeroed page (`Page::default()`) whose first `size_of::<T>()`
bytes were overwritten with the bit representation of `value`, the
remaining bytes staying zero. -/
def Page.copy (T : Pod) (v : Nat → Nat) : Except CopyError Page :=
  if T.size ≤ Page.size then
    if T.align ≤ Page.align then
      if Page.align % T.align = 0 then
        if 0 < T.size then
          .ok ⟨fun i => if (i : Nat) < T.size then v (i : Nat) else 0⟩
        else .error .indexOutOfBounds
      else .error .alignmentNotDivisible
    else .error .alignmentExceeded
  else .error .sizeExceeded

/-- `u32`: size 4, alignment 4. -/
def u32Pod : Pod := ⟨4, 4⟩

/-- The bit representation of a `u32` value in the platform's native byte
order (little-endian on the reference platform): byte `i` is
`n / 256 ^ i % 256`. -/
def u32bytes (n : Nat) : Nat → Nat := fun i => n / 256 ^ i % 256

/-- Decoding the first 4 bytes of a page as a `u32` in the platform's native
(little-endian) byte order. -/
def Page.decodeU32 (p : Page) : Nat :=
  p.bytes 0 + 256 * p.bytes 1 + 65536 * p.bytes 2 + 16777216 * p.bytes 3

theorem Page.size_eq : Page.size = 4096 := by norm_num [Page.size]

theorem Page.asRef_length (p : Page) : (Page.asRef p).length = Page.size := by
  rw [show Page.asRef p = List.ofFn p.bytes from rfl, List.length_ofFn,
    Page.size_eq]

theorem Page.asMut_length (p : Page) : (Page.asMut p).length = Page.size := by
  rw [show Page.asMut p = List.ofFn p.bytes from rfl, List.length_ofFn,
    Page.size_eq]

theorem Page.asRef_get (p : Page) (i : Fin 4096) :
    (Page.asRef p).get? (i : Nat) = some (p.bytes i) := by
  rw [show Page.asRef p = List.ofFn p.bytes from rfl, List.get?_ofFn,
    List.ofFnNthVal, dif_pos i.isLt]

/-- Evaluating `Page::copy` when all three assertions pass and `T` is not
zero-sized (so `typed[0]` exists): the result holds the value's
representation bytes below `size_of::<T>()` and zero above. -/
theorem Page.copy_ok (T : Pod) (v : Nat → Nat)
    (h1 : T.size ≤ Page.size) (h2 : T.align ≤ Page.align)
    (h3 : Page.align % T.align = 0) (h0 : 0 < T.size) :
    Page.copy T v =
      .ok ⟨fun i => if (i : Nat) < T.size then v (i : Nat) else 0⟩ := by
  unfold Page.copy
  rw [if_pos h1, if_pos h2, if_pos h3, if_pos h0]

/-- C3: `Page::zeroed()`, `Default::default()` and `ConstDefault::DEFAULT`
each return a page every one of whose 4096 bytes is 0; each is a plain total
constant of the embedding (no failure mode). -/
theorem zeroed_default_DEFAULT_all_zero :
    (∀ i : Fin 4096, Page.zeroed.bytes i = 0) ∧
    (∀ i : Fin 4096, Page.default.bytes i = 0) ∧
    (∀ i : Fin 4096, Page.DEFAULT.bytes i = 0) := by
  refine ⟨fun i => rfl, fun i => rfl, fun i => rfl⟩

/-- C4: `Page::size()` is the constant 4096, and for every page the byte
views `as_ref()` and `as_mut()` have length exactly `Page::size()`, each
element being the corresponding storage byte (no prefix or suffix lost). -/
theorem size_and_byte_view_exact :
    Page.size = 4096 ∧
    (∀ p : Page, (Page.asRef p).length = Page.size) ∧
    (∀ p : Page, (Page.asMut p).length = Page.size) ∧
    (∀ (p : Page) (i : Fin 4096),
      (Page.asRef p).get? (i : Nat) = some (p.bytes i)) :=
  ⟨Page.size_eq, Page.asRef_length, Page.asMut_length, Page.asRef_get⟩

/-- C1 (amended: the quantified type must not be zero-sized, since for a
zero-sized `T` the source panics at `typed[0]` instead of returning a page):
when the three preconditions hold and `size_of(T) > 0`, the page
`Page::copy` returns holds the value's bit representation in its first
`size_of::<T>()` bytes and zero in every byte from `size_of::<T>()` up to
4096; in particular copying the `u32` value `0xDEADBEEF` yields a page
whose first 4 bytes decode in the native byte order to `0xDEADBEEF` and
whose remaining 4092 bytes are zero. -/
theorem copy_first_bytes_then_zero :
    (∀ (T : Pod) (v : Nat → Nat), 0 < T.size →
      T.size ≤ Page.size → T.align ≤ Page.align → Page.align % T.align = 0 →
      ∃ p : Page, Page.copy T v = .ok p ∧
        (∀ i : Fin 4096, (i : Nat) < T.size → p.bytes i = v (i : Nat)) ∧
        (∀ i : Fin 4096, T.size ≤ (i : Nat) → p.bytes i = 0)) ∧
    (∃ p : Page, Page.copy u32Pod (u32bytes 0xDEADBEEF) = .ok p ∧
      Page.decodeU32 p = 0xDEADBEEF ∧
      (∀ i : Fin 4096, 4 ≤ (i : Nat) → p.bytes i = 0)) := by
  constructor
  · intro T v h0 h1 h2 h3
    refine ⟨_, Page.copy_ok T v h1 h2 h3 h0, fun i hi => ?_, fun i hi => ?_⟩
    · show (if (i : Nat) < T.size then v (i : Nat) else 0) = v (i : Nat)
      rw [if_pos hi]
    · show (if (i : Nat) < T.size then v (i : Nat) else 0) = 0
      rw [if_neg (by omega)]
  · refine ⟨_, Page.copy_ok u32Pod (u32bytes 0xDEADBEEF)
      (by decide) (by decide) (by decide) (by decide), by decide,
      fun i hi => ?_⟩
    show (if (i : Nat) < 4 then u32bytes 0xDEADBEEF (i : Nat) else 0) = 0
    rw [if_neg (by omega)]

/-- C1's counterexample to the unamended claim: the zero-sized type of size
0 and alignment 1 (for example `()`) satisfies all three preconditions, yet
`Page::copy` returns no page at all — it panics indexing the empty middle
slice `align_to_mut::<T>()` yields for a zero-sized `T`. -/
theorem copy_zero_sized_no_page_cex :
    (Pod.mk 0 1).size ≤ Page.size ∧ (Pod.mk 0 1).align ≤ Page.align ∧
    Page.align % (Pod.mk 0 1).align = 0 ∧
    ¬ ∃ p : Page, Page.copy (Pod.mk 0 1) (fun _ => 0) = .ok p := by
  refine ⟨by decide, by decide, by decide, ?_⟩
  rintro ⟨p, hp⟩
  rw [show Page.copy (Pod.mk 0 1) (fun _ => 0) = .error .indexOutOfBounds
    from rfl] at hp
  exact Except.noConfusion hp

/-- C2 (amended: for types that are not zero-sized the call panics exactly
when one of the three asserted preconditions fails; a zero-sized type passes
all three checks and then panics at `typed[0]` with an index-out-of-bounds,
also before any observable effect).  The checks run before any byte is
written, so a failing call returns no page at all (no partially-written page
exists).  At the boundaries: size 4096 is accepted, size 4097 panics at the
first assertion (SizeExceeded), and alignment 8192 panics at the second
assertion (AlignmentExceeded) before any write. -/
theorem copy_panics_iff_precondition_violated :
    (∀ (T : Pod) (v : Nat → Nat), 0 < T.size →
      ((∃ e, Page.copy T v = .error e) ↔
        ¬ (T.size ≤ Page.size ∧ T.align ≤ Page.align ∧
           Page.align % T.align = 0))) ∧
    (∀ (T : Pod) (v : Nat → Nat), T.size = 0 →
      T.align ≤ Page.align → Page.align % T.align = 0 →
      Page.copy T v = .error .indexOutOfBounds) ∧
    (∀ v : Nat → Nat, ∃ p, Page.copy ⟨4096, 8⟩ v = .ok p) ∧
    (∀ v : Nat → Nat, Page.copy ⟨4097, 8⟩ v = .error .sizeExceeded) ∧
    (∀ v : Nat → Nat, Page.copy ⟨16, 8192⟩ v = .error .alignmentExceeded) := by
  refine ⟨fun T v h0 => ⟨?_, ?_⟩, fun T v h0 h2 h3 => ?_,
    fun v => ?_, fun v => ?_, fun v => ?_⟩
  · rintro ⟨e, he⟩ ⟨h1, h2, h3⟩
    rw [Page.copy_ok T v h1 h2 h3 h0] at he
    exact Except.noConfusion he
  · intro hnot
    unfold Page.copy
    by_cases h1 : T.size ≤ Page.size
    · rw [if_pos h1]
      by_cases h2 : T.align ≤ Page.align
      · rw [if_pos h2]
        by_cases h3 : Page.align % T.align = 0
        · exact absurd ⟨h1, h2, h3⟩ hnot
        · rw [if_neg h3]; exact ⟨_, rfl⟩
      · rw [if_neg h2]; exact ⟨_, rfl⟩
    · rw [if_neg h1]; exact ⟨_, rfl⟩
  · unfold Page.copy
    rw [if_pos (by rw [h0]; exact Nat.zero_le _), if_pos h2, if_pos h3,
      if_neg (by omega)]
  · exact ⟨_, Page.copy_ok ⟨4096, 8⟩ v
      (by decide) (by decide) (by decide) (by decide)⟩
  · unfold Page.copy
    rw [if_neg (by decide)]
  · unfold Page.copy
    rw [if_pos (by decide), if_neg (by decide)]

/-- C2's counterexample to the unamended claim: for the zero-sized type of
size 0 and alignment 1 (for example `()`), `Page::copy` panics although
every one of the three preconditions holds — the panic is the
index-out-of-bounds at `typed[0]`, not an assertion failure. -/
theorem copy_panic_without_violation_cex :
    (∃ e, Page.copy (Pod.mk 0 1) (fun _ => 0) = .error e) ∧
    (Pod.mk 0 1).size ≤ Page.size ∧ (Pod.mk 0 1).align ≤ Page.align ∧
    Page.align % (Pod.mk 0 1).align = 0 :=
  ⟨⟨.indexOutOfBounds, rfl⟩, by decide, by decide, by decide⟩

/-- C5: `Page::copy` is deterministic: two calls at the same type with
bit-identical input values return byte-identical pages. -/
theorem copy_deterministic (T : Pod) (v w : Nat → Nat) (h : v = w) :
    Page.copy T v = Page.copy T w := by rw [h]

theorem copy_deterministic_witness :
    Page.copy u32Pod (u32bytes 3735928559) =
      Page.copy u32Pod (u32bytes 3735928559) :=
  copy_deterministic u32Pod (u32bytes 3735928559) (u32bytes 3735928559) rfl

/-- C6: a Page is a value: a copy `q` of `p` has independent storage, so
writing a byte through the copy's mutable view produces a page that differs
only at the written offset, agreeing with `p`'s bytes everywhere else, while
`p`'s own bytes are exactly the bytes the copy started from (unchanged). -/
theorem page_value_copy_independence (p q : Page) (h : q = p) (i : Fin 4096)
    (b : Nat) :
    (Page.setByte q i b).bytes i = b ∧
    (∀ j : Fin 4096, j ≠ i → (Page.setByte q i b).bytes j = p.bytes j) ∧
    (∀ j : Fin 4096, p.bytes j = q.bytes j) := by
  subst h
  refine ⟨?_, fun j hj => ?_, fun j => rfl⟩
  · show (if i = i then b else q.bytes i) = b
    rw [if_pos rfl]
  · show (if j = i then b else q.bytes j) = q.bytes j
    rw [if_neg hj]

theorem page_value_copy_independence_witness :
    (Page.setByte Page.zeroed 0 7).bytes 0 = 7 ∧
    (∀ j : Fin 4096, j ≠ 0 →
      (Page.setByte Page.zeroed 0 7).bytes j = Page.zeroed.bytes j) ∧
    (∀ j : Fin 4096, Page.zeroed.bytes j = Page.zeroed.bytes j) :=
  page_value_copy_independence Page.zeroed Page.zeroed rfl 0 7

/-- C7: the declared alignment of `Page` is 4096 (every live page's storage
starts at a 4096-aligned address), and the storage is exactly 4096 contiguous
bytes with no header, footer or metadata: the byte view is the entire
storage, byte for byte. -/
theorem page_alignment_and_layout :
    Page.align = 4096 ∧ Page.size = 4096 ∧
    (∀ p : Page, (Page.asRef p).length = Page.size) ∧
    (∀ (p : Page) (i : Fin 4096),
      (Page.asRef p).get? (i : Nat) = some (p.bytes i)) :=
  ⟨rfl, Page.size_eq, Page.asRef_length, Page.asRef_get⟩

/-- C8: evaluating the embedded `Page::copy` at a zero-sized type (size 0,
alignment 1, value bytes irrelevant): all three assertions pass, yet the
call does not return `Page::zeroed()` — it ends in the index-out-of-bounds
panic of `typed[0] = value`, because `align_to_mut` to a zero-sized element
type yields an empty middle slice.  This contradicts the function's own
panic documentation (which lists only the three assertions) and the
specification's failure taxonomy, so the claim records a code bug. -/
theorem copy_zero_sized_panics :
    Page.copy (Pod.mk 0 1) (fun _ => 37) = .error .indexOutOfBounds := rfl

/-- C9: the third assertion of `Page::copy` is redundant: a Rust alignment
is a power of two, and if the second assertion passes (the alignment is at
most 4096), the power of two divides 4096, so the third assertion cannot be
the one that fires — no call ends in AlignmentNotDivisible. -/
theorem copy_third_check_redundant (T : Pod) (v : Nat → Nat) (k : Nat)
    (hpow : T.align = 2 ^ k) (h2 : T.align ≤ Page.align) :
    Page.align % T.align = 0 ∧
    ∀ e, Page.copy T v = .error e → e ≠ .alignmentNotDivisible := by
  have hdvd : Page.align % T.align = 0 := by
    rw [hpow] at h2 ⊢
    have hk : k ≤ 12 := by
      by_contra hcon
      push_neg at hcon
      have h13 : (2 : Nat) ^ 13 ≤ 2 ^ k :=
        Nat.pow_le_pow_right (by norm_num) (by omega)
      have : (2 : Nat) ^ 13 ≤ Page.align := le_trans h13 h2
      norm_num [Page.align] at this
    have hdd : (2 : Nat) ^ k ∣ 2 ^ 12 := pow_dvd_pow 2 hk
    have h412 : Page.align = 2 ^ 12 := by norm_num [Page.align]
    rw [h412]
    exact (Nat.div_mul_cancel hdd) ▸ Nat.mul_mod_left (2 ^ 12 / 2 ^ k) (2 ^ k)
  refine ⟨hdvd, fun e he => ?_⟩
  unfold Page.copy at he
  by_cases h1 : T.size ≤ Page.size
  · rw [if_pos h1, if_pos h2, if_pos hdvd] at he
    by_cases h0 : 0 < T.size
    · rw [if_pos h0] at he
      exact Except.noConfusion he
    · rw [if_neg h0] at he
      injection he with he
      subst he
      decide
  · rw [if_neg h1] at he
    injection he with he
    subst he
    decide

theorem copy_third_check_redundant_witness :
    Page.align % (Pod.mk 8 8).align = 0 ∧
    ∀ e, Page.copy (Pod.mk 8 8) (fun _ => 1) = .error e →
      e ≠ .alignmentNotDivisible :=
  copy_third_check_redundant (Pod.mk 8 8) (fun _ => 1) 3 rfl (by decide)

/-- C10: a type whose alignment equals the page's alignment 4096 passes both
alignment assertions of `Page::copy`: the checks use `>=` and `% == 0`,
which accept equality, so no call at such a type panics at either alignment
assertion (whatever else the call does, it never fails with
AlignmentExceeded or AlignmentNotDivisible). -/
theorem copy_align_equal_accepted (T : Pod) (v : Nat → Nat)
    (ha : T.align = 4096) :
    Page.copy T v ≠ .error .alignmentExceeded ∧
    Page.copy T v ≠ .error .alignmentNotDivisible := by
  have h2 : T.align ≤ Page.align := by rw [ha]; decide
  have h3 : Page.align % T.align = 0 := by rw [ha]; decide
  have key : ∀ e, Page.copy T v = .error e →
      e = .sizeExceeded ∨ e = .indexOutOfBounds := by
    intro e he
    unfold Page.copy at he
    by_cases h1 : T.size ≤ Page.size
    · rw [if_pos h1, if_pos h2, if_pos h3] at he
      by_cases h0 : 0 < T.size
      · rw [if_pos h0] at he
        exact Except.noConfusion he
      · rw [if_neg h0] at he
        injection he with he
        exact Or.inr he.symm
    · rw [if_neg h1] at he
      injection he with he
      exact Or.inl he.symm
  constructor
  · intro he
    rcases key _ he with h | h <;> exact absurd h (by decide)
  · intro he
    rcases key _ he with h | h <;> exact absurd h (by decide)

theorem copy_align_equal_accepted_witness :
    Page.copy (Pod.mk 4096 4096) (fun _ => 0) ≠ .error .alignmentExceeded ∧
    Page.copy (Pod.mk 4096 4096) (fun _ => 0) ≠ .error .alignmentNotDivisible :=
  copy_align_equal_accepted (Pod.mk 4096 4096) (fun _ => 0) rfl

end Primordial
